import Mathlib

/-!
Verification of the tk-multi-reviewsubmission review-submission app.

The development shallowly embeds the parts of the repository that the
claims are about:

* `renderer.py` — `ShooterThread.run` (subprocess spawn, stderr capture,
  sentinel-block extraction) and the tail of `Renderer.render_in_nuke`
  (error surfacing, processed-path recovery), plus
  `Renderer.gather_nuke_render_info` (OS → settings-key lookup).
* `hooks/nuke_batch_render_movie.py` — the `__main__` worker entry point
  (argument completeness check, protocol frame emission, exit codes).
* `hooks/preprocess_nuke.py` — the default `get_processed_script` hook.
* `app.py` — `render_and_submit` and `render_and_submit_version`.

Python string operations (`str.split(sep)` indexing, substring scanning)
are modelled on `List Char`; Python dicts whose keys matter are modelled
as association lists where the last binding wins, matching dict update
semantics.
-/

set_option maxRecDepth 20000

namespace ReviewSubmission

/-! ### Python string primitives -/

/-- Predicate `isPrefixOfCL p s`: true when the character list `p` is a prefix of `s`
(Python: `s.startswith(p)`). -/
def isPrefixOfCL : List Char → List Char → Bool
  | [], _ => true
  | _ :: _, [] => false
  | a :: as, b :: bs => a == b && isPrefixOfCL as bs

/-- Predicate `containsSeq pat s`: true when `pat` occurs as a contiguous
subsequence of `s` (Python: `pat in s`). -/
def containsSeq (pat : List Char) : List Char → Bool
  | [] => pat.isEmpty
  | c :: rest => isPrefixOfCL pat (c :: rest) || containsSeq pat rest

/-- Remainder of `s` after the first occurrence of `sep`, or `none` when
`sep` does not occur.  This is the scanning step behind Python
`s.split(sep)[1]`. -/
def findSeq (sep : List Char) : List Char → Option (List Char)
  | [] => if sep.isEmpty then some [] else none
  | c :: rest =>
      if isPrefixOfCL sep (c :: rest) then some ((c :: rest).drop sep.length)
      else findSeq sep rest

/-- Characters of `s` strictly before the first occurrence of `sep`
(all of `s` when `sep` is absent). -/
def takeUntilSeq (sep : List Char) : List Char → List Char
  | [] => []
  | c :: rest =>
      if isPrefixOfCL sep (c :: rest) then []
      else c :: takeUntilSeq sep rest

/-- Python `s.split(sep)[1]` for a non-empty separator: the text between
the first and second occurrences of `sep` (to the end of `s` when `sep`
occurs only once); `none` models the `IndexError` raised when `sep` is
absent. -/
def extractBlock (sep s : List Char) : Option (List Char) :=
  (findSeq sep s).map (takeUntilSeq sep)

/-- Python `s.split(sep)` for a single-character separator. -/
def splitOnChar (sep : Char) : List Char → List (List Char)
  | [] => [[]]
  | c :: rest =>
      if c == sep then [] :: splitOnChar sep rest
      else
        match splitOnChar sep rest with
        | [] => [[c]]
        | chunk :: more => (c :: chunk) :: more

/-- Python dict lookup on an association list where later bindings
shadow earlier ones (dict update semantics). -/
def dictGet (m : List (String × String)) (k : String) : Option String :=
  ((m.filter (fun p => p.1 == k)).getLast?).map Prod.snd

/-- Proposition `charFree c l`: the character `c` does not occur in `l`. -/
def charFree (c : Char) (l : List Char) : Prop := ∀ x ∈ l, x ≠ c

instance (c : Char) (l : List Char) : Decidable (charFree c l) := by
  unfold charFree; infer_instance

/-- Python `pat in s`. -/
def containsSubstring (pat s : String) : Bool := containsSeq pat.data s.data

/-- Python `s.split(sep)[1]` wrapped at `String` level; `none` models the
`IndexError` raised when `sep` does not occur in `s`. -/
def pySplitGet1 (sep s : String) : Option String :=
  (extractBlock sep.data s.data).map String.mk

/-- Python `s.split(":")`. -/
def pySplitColon (s : String) : List String :=
  (splitOnChar ':' s.data).map String.mk

/-! ### `renderer.py`: `ShooterThread` result decoding and
`Renderer.render_in_nuke` outcome surfacing -/

/-- Sentinel literal used for the worker status frame
(`renderer.py` line 266, `nuke_batch_render_movie.py` line 265). -/
def RETURN_STATUS_DATA : String := "[RETURN_STATUS_DATA]"

/-- Sentinel literal used for the worker processed-paths frame
(`renderer.py` line 271, `nuke_batch_render_movie.py` line 267). -/
def PROCESSED_PATHS : String := "[PROCESSED_PATHS]"

/-- The fields of `ShooterThread` observable after `run` finishes.  Both
string fields are initialised to `''` in `__init__`; `raisedIndexError`
records whether the `split(...)[1]` indexing raised an uncaught
`IndexError` inside the thread (in which case neither field is ever
assigned). -/
structure ThreadState where
  subproc_error_msg : String
  processed_paths : String
  raisedIndexError : Bool
deriving DecidableEq

/-- Model of `ShooterThread.run`, lines 264-272 of `renderer.py`: after the worker
exits, decode the captured stderr text (`output_str`) according to the exit
code.  On non-zero exit the status block payload is stored in
`subproc_error_msg`; on zero exit the paths block payload is stored in
`processed_paths`. -/
def shooterRun (returncode : Int) (output_str : String) : ThreadState :=
  if returncode ≠ 0 then
    match pySplitGet1 RETURN_STATUS_DATA output_str with
    | some s => ⟨s, "", false⟩
    | none => ⟨"", "", true⟩
  else
    match pySplitGet1 PROCESSED_PATHS output_str with
    | some s => ⟨"", s, false⟩
    | none => ⟨"", "", true⟩

/-- Outcome of `Renderer.render_in_nuke` as seen by its caller: either an
exception with a message (`failure`) or the returned list of processed
paths (`success`). -/
inductive RenderOutcome
  | failure (msg : String)
  | success (paths : List String)
deriving DecidableEq

def errorHeader : String := "Error in tk-multi-reviewsubmission: "

/-- The fixed protocol-violation message raised when no processed paths
were recovered (`renderer.py` line 197). -/
def noOutputMsg : String :=
  errorHeader ++ "No output paths were found after the render!"

/-- Lines 188-191 of `renderer.py`:
`'Traceback' + thread_error_msg.split('Traceback')[1]`, falling back to the
whole message when the marker is absent (the `IndexError` branch). -/
def trimTraceback (msg : String) : String :=
  match pySplitGet1 "Traceback" msg with
  | some rest => "Traceback" ++ rest
  | none => msg

/-- Lines 182-206 of `renderer.py`: surface the thread outcome to the
caller.  A non-empty error message raises; an empty processed-paths string
raises the fixed no-output message; otherwise the `':'`-separated paths are
returned as a list. -/
def renderDispatch (st : ThreadState) : RenderOutcome :=
  if st.subproc_error_msg ≠ "" then
    .failure (errorHeader ++ trimTraceback st.subproc_error_msg)
  else if st.processed_paths = "" then
    .failure noOutputMsg
  else
    .success (pySplitColon st.processed_paths)

/-- Artifact paths joined by `':'`, the payload format of the
processed-paths frame. -/
def joinColon : List String → String
  | [] => ""
  | [p] => p
  | p :: ps => p ++ ":" ++ joinColon ps

/-! ### `hooks/nuke_batch_render_movie.py`: the worker entry point -/

/-- The required named arguments of the worker (`data_keys`, lines
223-226). -/
def data_keys : List String :=
  ["path_to_frames", "path_to_movie", "extra_write_node_mapping", "width", "height",
   "first_frame", "last_frame", "version", "name", "color_space", "app_settings",
   "shotgun_context", "render_info"]

/-- Single-quote character, used to spell Python `str(dict)` payloads. -/
def sq : String := (Char.ofNat 39).toString

/-- Opening-brace character. -/
def obr : String := (Char.ofNat 123).toString

/-- Closing-brace character. -/
def cbr : String := (Char.ofNat 125).toString

/-- Result dictionary of the worker-side `render_in_nuke` (the render
backend): either the success dictionary of line 198 or the error
dictionary of lines 178/192. -/
inductive RetStatus
  | ok
  | error (error_msg : String) (output_path : String)
deriving DecidableEq

/-- Python `str(ret_status)` for the dictionaries returned by
`render_in_nuke`.  (Python `repr` escaping of quotes embedded in
`error_msg`/`output_path` is not modelled; no claim depends on it.) -/
def statusString : RetStatus → String
  | .ok => obr ++ sq ++ "status" ++ sq ++ ": " ++ sq ++ "OK" ++ sq ++ cbr
  | .error m p =>
      obr ++ sq ++ "status" ++ sq ++ ": " ++ sq ++ "ERROR" ++ sq ++ ", " ++
        sq ++ "error_msg" ++ sq ++ ": " ++ sq ++ m ++ sq ++ ", " ++
        sq ++ "output_path" ++ sq ++ ": " ++ sq ++ p ++ sq ++ cbr

/-- The status frame written at line 265:
`'[RETURN_STATUS_DATA]{0}[RETURN_STATUS_DATA]'.format(ret_status)`. -/
def statusFrame (ret : RetStatus) : String :=
  RETURN_STATUS_DATA ++ statusString ret ++ RETURN_STATUS_DATA

/-- Text before the script name in `get_usage` (lines 202-203). -/
def usageHead : String := "\n  Usage: python "

/-- Text after the script name in `get_usage` (lines 203-218). -/
def usageTail : String :=
  " [ OPTIONS ]\n         -h | --help ... print this usage message and exit.\n         --path_to_frames <FRAME_PATH> ... specify full path to frames, with frame spec ... e.g. \".%04d.exr\"\n         --path_to_movie <OUTPUT_MOVIE_PATH> ... specify full path to output movie\n         --extra_write_node_mapping <EXTRA_WRITE_NODE_MAPPING> ... mapping of extra write nodes to their output paths\n         --width <WIDTH> ... specify width for output movie\n         --height <HEIGHT> ... specify height for output movie\n         --first_frame <FIRST_FRAME> ... specify first frame number of the input frames\n         --last_frame <LAST_FRAME> ... specify last frame number of the input frames\n         --version <VERSION> ... specify version number for the slate\n         --name <NAME> ... specify name for the slate\n         --color_space <COLOR_SPACE> ... specify color space to use for the movie generation\n         --app_settings <APP_SETTINGS> ... specify app settings from the Toolkit app calling this\n         --shotgun_context <SHOTGUN_CONTEXT> ... specify shotgun context from the Toolkit app calling this\n         --render_info <RENDER_INFO> ... specify render info from the Toolkit app calling this\n"

/-- Function `get_usage()` with the placeholder already formatted to the script basename. -/
def get_usage (scriptName : String) : String := usageHead ++ scriptName ++ usageTail

/-- The missing-argument error written at line 252. -/
def missingArgMsg (k : String) : String :=
  "ERROR - missing input argument for \"--" ++ k ++ "\". Aborting"

/-- The `input_data` dict built by the option loop (lines 239-248): only
options whose names are in `data_keys` are stored.  Options are modelled as
`(name, value)` pairs with the leading dashes stripped and values kept
opaque (deserialization preserves them one-to-one for our purposes). -/
def buildInputData (opts : List (String × String)) : List (String × String) :=
  opts.filter (fun p => data_keys.contains p.1)

/-- Whether the option list carries `-h`/`--help` (line 240). -/
def hasHelpOpt (opts : List (String × String)) : Bool :=
  opts.any (fun p => p.1 == "h" || p.1 == "help")

/-- Observable result of one worker run: the program-issued stderr writes
(the interpreter's own traceback dump on a crash is not included), the
protocol frames among them, the process exit code, whether the render
backend was invoked, and the key of an uncaught `KeyError`, if any
(a Python process dying on an uncaught exception exits with code 1). -/
structure RunResult where
  stderrWrites : List String
  framesEmitted : List String
  exitCode : Nat
  renderInvoked : Bool
  uncaughtKeyError : Option String
deriving DecidableEq

/-- The `__main__` block of `nuke_batch_render_movie.py` (lines 221-273),
starting from the parsed option list: help handling (lines 240-242),
missing-argument check (lines 250-254), render backend invocation
(line 258, abstracted by `ret`), and protocol frame emission
(lines 264-268) followed by the exit-code choice (lines 270-273).
Line 267 reads `input_data['output_path']`, which raises `KeyError` when
absent. -/
def workerMain (opts : List (String × String)) (scriptName : String)
    (ret : RetStatus) : RunResult :=
  if hasHelpOpt opts then
    { stderrWrites := [], framesEmitted := [], exitCode := 0,
      renderInvoked := false, uncaughtKeyError := none }
  else
    match data_keys.find? (fun k => (dictGet (buildInputData opts) k).isNone) with
    | some k =>
        { stderrWrites := [missingArgMsg k, get_usage scriptName],
          framesEmitted := [], exitCode := 2,
          renderInvoked := false, uncaughtKeyError := none }
    | none =>
        match dictGet (buildInputData opts) "output_path" with
        | none =>
            { stderrWrites := ["", statusFrame ret, ""],
              framesEmitted := [statusFrame ret], exitCode := 1,
              renderInvoked := true, uncaughtKeyError := some "output_path" }
        | some op =>
            { stderrWrites := ["", statusFrame ret, "",
                PROCESSED_PATHS ++ op ++ PROCESSED_PATHS, ""],
              framesEmitted := [statusFrame ret,
                PROCESSED_PATHS ++ op ++ PROCESSED_PATHS],
              exitCode := if ret = RetStatus.ok then 0 else 3,
              renderInvoked := true, uncaughtKeyError := none }

/-! ### `renderer.py`: `gather_nuke_render_info` OS lookup (lines 82-85) -/

/-- Dictionary `setting_key_by_os` from `gather_nuke_render_info`. -/
def setting_key_by_os : List (String × String) :=
  [("win32", "nuke_windows_path"), ("linux2", "nuke_linux_path"),
   ("darwin", "nuke_mac_path")]

/-- Lookup of the platform in `setting_key_by_os` (line 85); `none` models the
`KeyError` raised for an unrecognized platform identity. -/
def osSettingKey (platform : String) : Option String :=
  dictGet setting_key_by_os platform

/-- Whether `render_in_nuke` reaches the thread spawn, and the
configuration error raised otherwise: `gather_nuke_render_info` is called
(line 171) before the `ShooterThread` is created and started
(lines 177-179), so a `KeyError` in the settings-key lookup aborts the
dispatch before any worker process is spawned. -/
structure DispatchTrace where
  spawned : Bool
  configError : Option String
deriving DecidableEq

/-- The spawn-vs-configuration-error behaviour of `render_in_nuke` as a
function of the host platform identity. -/
def renderInNukeEntry (platform : String) : DispatchTrace :=
  match osSettingKey platform with
  | some _ => ⟨true, none⟩
  | none => ⟨false, some platform⟩

/-! ### `renderer.py`: `ShooterThread` command line and spawn environment
(lines 224-249) -/

/-- The fields of `self.render_info` consumed by `ShooterThread.run`, as
assembled by `gather_nuke_render_info`; every value is kept as an opaque
string. -/
structure NukeRenderInfo where
  nuke_exe_path : String
  render_script_path : String
  src_frames_path : String
  movie_output_path : String
  extra_write_node_mapping : String
  width : String
  height : String
  version : String
  name : String
  color_space : String
  first_frame : String
  last_frame : String
  app_settings : String
  serialized_context : String
  render_info : String

/-- Command line `cmd_and_args` (lines 230-245); `pickle` stands for Python `pickle.dumps`.
Every structured argument is pickled, while `--shotgun_context` receives
the serialized context token unencoded. -/
def cmdAndArgs (pickle : String → String) (batch_mode : Bool)
    (ri : NukeRenderInfo) : List String :=
  [ri.nuke_exe_path, if batch_mode then "-t" else "-it", ri.render_script_path,
   "--path_to_frames", pickle ri.src_frames_path,
   "--path_to_movie", pickle ri.movie_output_path,
   "--extra_write_node_mapping", pickle ri.extra_write_node_mapping,
   "--width", pickle ri.width,
   "--height", pickle ri.height,
   "--version", pickle ri.version,
   "--name", pickle ri.name,
   "--color_space", pickle ri.color_space,
   "--first_frame", pickle ri.first_frame,
   "--last_frame", pickle ri.last_frame,
   "--app_settings", pickle ri.app_settings,
   "--shotgun_context", ri.serialized_context,
   "--render_info", pickle ri.render_info]

/-- Lines 247-249: `env = copy.deepcopy(os.environ);
env["TANK_CONTEXT"] = self.render_info['serialized_context']`, the
environment passed to `subprocess.Popen`. -/
def spawnEnv (osEnv : String → Option String) (ri : NukeRenderInfo) :
    String → Option String :=
  fun k => if k = "TANK_CONTEXT" then some ri.serialized_context else osEnv k

/-! ### `hooks/preprocess_nuke.py`: the default preprocessing hook -/

/-- Hook method `PreprocessNuke.get_processed_script` (lines 10-20): the default
implementation returns the nuke script unchanged (intended to be
overridden as required). -/
def get_processed_script (nuke_script_path : String)
    (fields : List (String × String)) : String :=
  nuke_script_path

/-- Modelled from the spec: the character class allowed inside a token
body (§4.1 of the specification) — letters, digits, spaces and the symbols
`%/:()-,.+_`. -/
def allowedTokenChar (c : Char) : Bool :=
  c.isAlpha || c.isDigit || c == ' ' || c == '%' || c == '/' || c == ':' ||
    c == '(' || c == ')' || c == '-' || c == ',' || c == '.' || c == '+' ||
    c == '_'

/-- Modelled from the spec: whether the characters following an opening
`[*` marker form a valid token body terminated by `*]`. -/
def tokenBodyAt : List Char → Bool
  | '*' :: ']' :: _ => true
  | c :: rest => allowedTokenChar c && tokenBodyAt rest
  | [] => false

/-- Modelled from the spec: whether the text contains a recognized token
`[*` body `*]` anywhere. -/
def hasTokenFrom : List Char → Bool
  | '[' :: '*' :: rest => tokenBodyAt rest || hasTokenFrom ('*' :: rest)
  | _ :: rest => hasTokenFrom rest
  | [] => false

/-- Modelled from the spec: normalization of the escaped opening form
`\[*` to the plain opening marker `[*` before scanning (§4.1). -/
def normalizeEscapes : List Char → List Char
  | '\\' :: '[' :: '*' :: rest => '[' :: '*' :: normalizeEscapes rest
  | c :: rest => c :: normalizeEscapes rest
  | [] => []

/-- Modelled from the spec: the Token Substitution Engine itself is not
part of this repository (the `preprocess_nuke_hook` performing substitution
is overridden externally); only its token grammar (§4.1) is needed here,
as the hypothesis of C9: a template contains a recognized token when,
after escape normalization, it contains `[*` body `*]` with the body drawn
from the allowed character class. -/
def hasRecognizedToken (s : String) : Bool :=
  hasTokenFrom (normalizeEscapes s.data)

/-! ### `app.py`: deprecated entry-point delegation (lines 59-104) -/

/-- Python dict assignment `fields[k] = v` on an association-list dict. -/
def dictSet (m : List (String × String)) (k v : String) :
    List (String × String) :=
  m.filter (fun p => !(p.1 == k)) ++ [(k, v)]

/-- A path template as used by `render_and_submit_version`: the names of
its sequence keys and its `apply_fields` resolution, both delegated to the
external toolkit. -/
structure TemplateModel where
  seqKeyNames : List String
  applyFields : List (String × String) → String

/-- The pass-through arguments shared by the two entry points, opaque to
the delegation. -/
structure SubmitArgs where
  first_frame : Int
  last_frame : Int
  sg_publishes : List String
  sg_task : Option String
  comment : String
  thumbnail_path : String

/-- The surrounding application: `render_and_submit_path` is the
collaborator both entry points ultimately delegate to, modelled opaquely as
returning the log lines it emits together with the created Version entity,
if any. -/
structure AppModel where
  render_and_submit_path : String → List (String × String) → SubmitArgs →
    Option String → List String × Option String

/-- The deprecation warning logged by `render_and_submit`
(lines 65-67). -/
def deprecationWarning : String :=
  "The method " ++ sq ++ "render_and_submit()" ++ sq ++
    " has been deprecated as it didn" ++ sq ++ "t allow the colorspace " ++
    "of the input frames to be specified.  Please use " ++ sq ++
    "render_and_submit_version()" ++ sq ++ " instead."

/-- Entry point `render_and_submit_version` (lines 73-104): copy the caller fields,
overwrite every sequence-key field with the `FORMAT: %d` marker, resolve
the frames path from the template, and delegate to
`render_and_submit_path`.  Results are pairs (log lines, returned Version
entity). -/
def render_and_submit_version (app : AppModel) (template : TemplateModel)
    (fields : List (String × String)) (a : SubmitArgs)
    (color_space : Option String) : List String × Option String :=
  let fields2 :=
    template.seqKeyNames.foldl (fun f k => dictSet f k "FORMAT: %d") fields
  let path_to_frames := template.applyFields fields2
  app.render_and_submit_path path_to_frames fields2 a color_space

/-- Deprecated entry point `render_and_submit` (lines 59-71): log the deprecation warning, then
return `render_and_submit_version` on the same arguments (`color_space`
takes its default `None`). -/
def render_and_submit (app : AppModel) (template : TemplateModel)
    (fields : List (String × String)) (a : SubmitArgs) :
    List String × Option String :=
  let r := render_and_submit_version app template fields a none
  (deprecationWarning :: r.1, r.2)

/-! ### Theorems -/

/-! ### Lemmas about the string primitives -/

theorem isPrefixOfCL_iff {p s : List Char} :
    isPrefixOfCL p s = true ↔ ∃ t, s = p ++ t := by
  induction p generalizing s with
  | nil => simp [isPrefixOfCL]
  | cons a as ih =>
      cases s with
      | nil => simp [isPrefixOfCL]
      | cons b bs =>
          simp only [isPrefixOfCL, Bool.and_eq_true, beq_iff_eq, ih]
          constructor
          · rintro ⟨rfl, t, rfl⟩; exact ⟨t, rfl⟩
          · rintro ⟨t, h⟩
            rw [List.cons_append] at h
            injection h with h1 h2
            exact ⟨h1.symm, t, h2⟩

theorem isPrefixOfCL_self_append (p t : List Char) :
    isPrefixOfCL p (p ++ t) = true :=
  isPrefixOfCL_iff.mpr ⟨t, rfl⟩

theorem isPrefixOfCL_cons_of_ne {c₀ x : Char} {s' r : List Char} (h : x ≠ c₀) :
    isPrefixOfCL (c₀ :: s') (x :: r) = false := by
  have hc : (c₀ == x) = false := beq_eq_false_iff_ne.mpr (Ne.symm h)
  simp [isPrefixOfCL, hc]

theorem containsSeq_cons (pat : List Char) (c : Char) (rest : List Char) :
    containsSeq pat (c :: rest) =
      (isPrefixOfCL pat (c :: rest) || containsSeq pat rest) := rfl

theorem findSeq_eq_none_of_not_contains {sep s : List Char}
    (h : containsSeq sep s = false) : findSeq sep s = none := by
  induction s with
  | nil =>
      simp only [containsSeq, List.isEmpty_iff] at h
      simp [findSeq, List.isEmpty_iff, h]
  | cons c rest ih =>
      rw [containsSeq_cons, Bool.or_eq_false_iff] at h
      simp [findSeq, h.1, ih h.2]

theorem takeUntilSeq_of_not_contains {sep s : List Char}
    (h : containsSeq sep s = false) : takeUntilSeq sep s = s := by
  induction s with
  | nil => rfl
  | cons c rest ih =>
      rw [containsSeq_cons, Bool.or_eq_false_iff] at h
      simp [takeUntilSeq, h.1, ih h.2]

theorem findSeq_sep_append (c : Char) (s' t : List Char) :
    findSeq (c :: s') ((c :: s') ++ t) = some t := by
  have h : isPrefixOfCL (c :: s') ((c :: s') ++ t) = true :=
    isPrefixOfCL_self_append _ _
  rw [List.cons_append, findSeq, ← List.cons_append, h]
  simp

theorem takeUntilSeq_sep_append (c : Char) (s' t : List Char) :
    takeUntilSeq (c :: s') ((c :: s') ++ t) = [] := by
  have h : isPrefixOfCL (c :: s') ((c :: s') ++ t) = true :=
    isPrefixOfCL_self_append _ _
  rw [List.cons_append, takeUntilSeq, ← List.cons_append, h]
  simp

theorem contains_of_isPrefixOfCL {sep s : List Char}
    (h : isPrefixOfCL sep s = true) : containsSeq sep s = true := by
  cases s with
  | nil =>
      rcases isPrefixOfCL_iff.mp h with ⟨t, ht⟩
      rcases List.append_eq_nil.mp ht.symm with ⟨h1, _⟩
      simp [containsSeq, h1]
  | cons c rest => simp [containsSeq_cons, h]

/-- A separator whose head character occurs nowhere else in it cannot match
at the start of `u ++ sep ++ t` when it does not match at the start of the
non-empty list `u`. -/
theorem no_straddle_match {c₀ : Char} {s' u t : List Char}
    (hu : c₀ ∉ s') (hnp : isPrefixOfCL (c₀ :: s') u = false) (hne : u ≠ []) :
    isPrefixOfCL (c₀ :: s') (u ++ (c₀ :: s') ++ t) = false := by
  by_contra hb
  rw [Bool.not_eq_false] at hb
  rcases isPrefixOfCL_iff.mp hb with ⟨w, hw⟩
  rw [List.append_assoc] at hw
  rcases List.append_eq_append_iff.mp hw with ⟨v, hv1, hv2⟩ | ⟨v, hv1, hv2⟩
  · -- (c₀ :: s') = u ++ v and (c₀ :: s') ++ t = v ++ w
    cases v with
    | nil =>
        rw [List.append_nil] at hv1
        have hpref : isPrefixOfCL (c₀ :: s') u = true :=
          isPrefixOfCL_iff.mpr ⟨[], by rw [List.append_nil]; exact hv1.symm⟩
        rw [hnp] at hpref
        exact Bool.false_ne_true hpref
    | cons v₀ v' =>
        rcases List.append_eq_append_iff.mp hv2 with ⟨z, hz1, _⟩ | ⟨z, hz1, _⟩
        · -- v₀ :: v' = (c₀ :: s') ++ z : impossible by lengths
          have hlen1 : (c₀ :: s').length = u.length + (v₀ :: v').length := by
            rw [hv1, List.length_append]
          have hlen2 : (v₀ :: v').length = (c₀ :: s').length + z.length := by
            rw [hz1, List.length_append]
          have hz : u.length = 0 := by omega
          exact hne (List.length_eq_zero.mp hz)
        · -- (c₀ :: s') = (v₀ :: v') ++ z : so v₀ = c₀ and c₀ ∈ s'
          have hv0 : v₀ = c₀ := by
            rw [List.cons_append] at hz1
            injection hz1 with h1 _
            exact h1.symm
          cases u with
          | nil => exact hne rfl
          | cons u₀ u' =>
              rw [List.cons_append] at hv1
              injection hv1 with _ h2
              exact hu (h2 ▸ List.mem_append_right u' (by simp [hv0]))
  · -- u = (c₀ :: s') ++ v : sep is a prefix of u, contradiction
    have hpref : isPrefixOfCL (c₀ :: s') u = true := isPrefixOfCL_iff.mpr ⟨v, hv1⟩
    rw [hnp] at hpref
    exact Bool.false_ne_true hpref

theorem findSeq_block {c₀ : Char} {s' a t : List Char}
    (hu : c₀ ∉ s') (ha : containsSeq (c₀ :: s') a = false) :
    findSeq (c₀ :: s') (a ++ (c₀ :: s') ++ t) = some t := by
  induction a with
  | nil => simpa using findSeq_sep_append c₀ s' t
  | cons x a' ih =>
      rw [containsSeq_cons, Bool.or_eq_false_iff] at ha
      have hstep : isPrefixOfCL (c₀ :: s') ((x :: a') ++ (c₀ :: s') ++ t) = false :=
        no_straddle_match hu ha.1 (by simp)
      rw [List.cons_append, List.cons_append, findSeq]
      rw [List.cons_append, List.cons_append] at hstep
      rw [hstep]
      simp only [Bool.false_eq_true, if_false]
      simpa [List.append_assoc] using ih ha.2

theorem takeUntilSeq_block {c₀ : Char} {s' a t : List Char}
    (hu : c₀ ∉ s') (ha : containsSeq (c₀ :: s') a = false) :
    takeUntilSeq (c₀ :: s') (a ++ (c₀ :: s') ++ t) = a := by
  induction a with
  | nil => simpa using takeUntilSeq_sep_append c₀ s' t
  | cons x a' ih =>
      rw [containsSeq_cons, Bool.or_eq_false_iff] at ha
      have hstep : isPrefixOfCL (c₀ :: s') ((x :: a') ++ (c₀ :: s') ++ t) = false :=
        no_straddle_match hu ha.1 (by simp)
      rw [List.cons_append, List.cons_append, takeUntilSeq]
      rw [List.cons_append, List.cons_append] at hstep
      rw [hstep]
      simp only [Bool.false_eq_true, if_false, List.cons.injEq, true_and]
      simpa [List.append_assoc] using ih ha.2

theorem containsSeq_eq_false_of_charFree {c₀ : Char} {s' s : List Char}
    (h : charFree c₀ s) : containsSeq (c₀ :: s') s = false := by
  induction s with
  | nil => simp [containsSeq]
  | cons c rest ih =>
      rw [containsSeq_cons, Bool.or_eq_false_iff]
      refine ⟨isPrefixOfCL_cons_of_ne (h c (by simp)), ih ?_⟩
      intro x hx
      exact h x (by simp [hx])

theorem containsSeq_append_charFree {c₀ : Char} {s' a b : List Char}
    (h : charFree c₀ a) :
    containsSeq (c₀ :: s') (a ++ b) = containsSeq (c₀ :: s') b := by
  induction a with
  | nil => rfl
  | cons x a' ih =>
      rw [List.cons_append, containsSeq_cons,
        isPrefixOfCL_cons_of_ne (h x (by simp)), Bool.false_or]
      exact ih (fun y hy => h y (by simp [hy]))

/-- The central extraction lemma: Python `s.split(sep)[1]` on a text of the
form `a ++ sep ++ payload ++ sep ++ post` recovers `payload`, provided the
separator starts with a character unique within it, `a` does not contain the
separator, and the payload does not contain the separator's head
character. -/
theorem extractBlock_framed {c₀ : Char} {s' a pay post : List Char}
    (hu : c₀ ∉ s') (ha : containsSeq (c₀ :: s') a = false)
    (hpay : charFree c₀ pay) :
    extractBlock (c₀ :: s')
      (a ++ (c₀ :: s') ++ pay ++ (c₀ :: s') ++ post) = some pay := by
  unfold extractBlock
  have h1 : a ++ (c₀ :: s') ++ pay ++ (c₀ :: s') ++ post =
      a ++ (c₀ :: s') ++ (pay ++ (c₀ :: s') ++ post) := by
    simp only [List.append_assoc]
  rw [h1, findSeq_block hu ha]
  simp only [Option.map_some']
  rw [takeUntilSeq_block hu (containsSeq_eq_false_of_charFree hpay)]

theorem splitOnChar_charFree {sep : Char} {p : List Char}
    (h : charFree sep p) : splitOnChar sep p = [p] := by
  induction p with
  | nil => rfl
  | cons c rest ih =>
      have hc : (c == sep) = false := by
        simp only [beq_eq_false_iff_ne]; exact h c (by simp)
      rw [splitOnChar, hc]
      simp only [Bool.false_eq_true, if_false]
      rw [ih (fun x hx => h x (by simp [hx]))]

theorem splitOnChar_append {sep : Char} {p t : List Char}
    (h : charFree sep p) :
    splitOnChar sep (p ++ sep :: t) = p :: splitOnChar sep t := by
  induction p with
  | nil =>
      rw [List.nil_append, splitOnChar]
      simp
  | cons c rest ih =>
      have hc : (c == sep) = false := by
        simp only [beq_eq_false_iff_ne]; exact h c (by simp)
      rw [List.cons_append, splitOnChar, hc]
      simp only [Bool.false_eq_true, if_false]
      rw [ih (fun x hx => h x (by simp [hx]))]

/-! ### String-level wrappers (Python `str` methods used by `renderer.py`) -/

theorem str_data_append (a b : String) : (a ++ b).data = a.data ++ b.data := rfl

theorem str_mk_data (s : String) : String.mk s.data = s := rfl

theorem str_eq_empty_iff (s : String) : s = "" ↔ s.data = [] := by
  constructor
  · intro h; rw [h]
  · intro h
    cases s with
    | mk d => cases h; rfl

theorem charFree_append {c : Char} {x y : List Char} :
    charFree c (x ++ y) ↔ charFree c x ∧ charFree c y := by
  simp only [charFree, List.mem_append]
  constructor
  · intro h; exact ⟨fun a ha => h a (Or.inl ha), fun a ha => h a (Or.inr ha)⟩
  · rintro ⟨h1, h2⟩ a (ha | ha)
    · exact h1 a ha
    · exact h2 a ha

theorem joinColon_data_cons_cons (p q : String) (ps : List String) :
    (joinColon (p :: q :: ps)).data = p.data ++ ':' :: (joinColon (q :: ps)).data := by
  show (p ++ ":" ++ joinColon (q :: ps)).data = _
  rw [str_data_append, str_data_append]
  simp [List.append_assoc]

theorem joinColon_charFree {c : Char} (hc : c ≠ ':') :
    ∀ {paths : List String}, (∀ p ∈ paths, charFree c p.data) →
      charFree c (joinColon paths).data
  | [], _ => by intro x hx; simp [joinColon] at hx
  | [p], h => by
      simpa [joinColon] using h p (by simp)
  | p :: q :: ps, h => by
      rw [joinColon_data_cons_cons]
      rw [charFree_append]
      refine ⟨h p (by simp), ?_⟩
      intro x hx
      rcases List.mem_cons.mp hx with rfl | hx
      · exact Ne.symm hc
      · exact joinColon_charFree hc (fun r hr => h r (by simp [hr])) x hx

theorem joinColon_ne_empty :
    ∀ {paths : List String}, paths ≠ [] → (∀ p ∈ paths, p ≠ "") →
      joinColon paths ≠ ""
  | [], hne, _ => absurd rfl hne
  | [p], _, hnn => by simpa [joinColon] using hnn p (by simp)
  | p :: q :: ps, _, _ => by
      rw [Ne, str_eq_empty_iff, joinColon_data_cons_cons]
      simp

theorem pySplitColon_joinColon :
    ∀ {paths : List String}, paths ≠ [] → (∀ p ∈ paths, charFree ':' p.data) →
      pySplitColon (joinColon paths) = paths
  | [], hne, _ => absurd rfl hne
  | [p], _, h => by
      show pySplitColon p = [p]
      rw [pySplitColon, splitOnChar_charFree (h p (by simp))]
      simp [str_mk_data]
  | p :: q :: ps, _, h => by
      rw [pySplitColon, joinColon_data_cons_cons,
        splitOnChar_append (h p (by simp))]
      have ih : pySplitColon (joinColon (q :: ps)) = q :: ps :=
        pySplitColon_joinColon (by simp) (fun r hr => h r (by simp [hr]))
      rw [pySplitColon] at ih
      simp only [List.map_cons, str_mk_data, ih, List.cons.injEq, true_and]

theorem processed_paths_tail : PROCESSED_PATHS.data = '[' :: "PROCESSED_PATHS]".data := rfl

theorem return_status_tail : RETURN_STATUS_DATA.data = '[' :: "RETURN_STATUS_DATA]".data := rfl

theorem traceback_tail : ("Traceback" : String).data = 'T' :: "raceback".data := rfl

/-- C2: for every captured worker stderr text containing a
`[PROCESSED_PATHS]`-delimited block whose payload is paths joined by `':'`,
paired with a zero process exit, the dispatcher returns a success outcome
whose artifact list is exactly those paths split on `':'`, in the order they
appear in the payload.  (The noise before the block is assumed not to
contain the sentinel, and the artifact paths are non-empty and contain
neither `'['` nor `':'`, so that the framing is unambiguous.) -/
theorem c2_zero_exit_paths_decoded (pre post : String) (paths : List String)
    (hpre : containsSubstring PROCESSED_PATHS pre = false)
    (hpaths : paths ≠ [])
    (hnn : ∀ p ∈ paths, p ≠ "")
    (hfree : ∀ p ∈ paths, charFree '[' p.data ∧ charFree ':' p.data) :
    renderDispatch (shooterRun 0
        (pre ++ PROCESSED_PATHS ++ joinColon paths ++ PROCESSED_PATHS ++ post))
      = RenderOutcome.success paths := by
  have hu : ('[' : Char) ∉ ("PROCESSED_PATHS]" : String).data := by decide
  have hJ : charFree '[' (joinColon paths).data :=
    joinColon_charFree (by decide) (fun p hp => (hfree p hp).1)
  have hpre' : containsSeq ('[' :: ("PROCESSED_PATHS]" : String).data) pre.data = false := by
    rw [← processed_paths_tail]
    exact hpre
  have hdata :
      (pre ++ PROCESSED_PATHS ++ joinColon paths ++ PROCESSED_PATHS ++ post).data =
        pre.data ++ ('[' :: ("PROCESSED_PATHS]" : String).data) ++
          (joinColon paths).data ++ ('[' :: ("PROCESSED_PATHS]" : String).data) ++ post.data := by
    rw [← processed_paths_tail]
    simp [str_data_append]
  have hext : pySplitGet1 PROCESSED_PATHS
      (pre ++ PROCESSED_PATHS ++ joinColon paths ++ PROCESSED_PATHS ++ post) =
        some (joinColon paths) := by
    rw [pySplitGet1, hdata, processed_paths_tail,
      extractBlock_framed hu hpre' hJ]
    simp [str_mk_data]
  have hrun : shooterRun 0
      (pre ++ PROCESSED_PATHS ++ joinColon paths ++ PROCESSED_PATHS ++ post) =
        ⟨"", joinColon paths, false⟩ := by
    rw [shooterRun]
    simp only [ne_eq, not_true_eq_false, if_neg, if_false]
    rw [hext]
  rw [hrun, renderDispatch]
  have hJne : joinColon paths ≠ "" := joinColon_ne_empty hpaths hnn
  rw [if_neg (by simp), if_neg hJne,
    pySplitColon_joinColon hpaths (fun p hp => (hfree p hp).2)]

/-- C2 witness at a concrete input. -/
theorem c2_witness :
    renderDispatch (shooterRun 0
        ("noise" ++ PROCESSED_PATHS ++ joinColon ["/a/x.mov", "/a/y.mov"] ++
          PROCESSED_PATHS ++ "tail"))
      = RenderOutcome.success ["/a/x.mov", "/a/y.mov"] :=
  c2_zero_exit_paths_decoded "noise" "tail" ["/a/x.mov", "/a/y.mov"]
    (by decide) (by decide) (by decide) (by decide)

/-- C3: for every captured worker stderr text with a zero process exit that
contains no `[PROCESSED_PATHS]` block, the dispatch raises the fixed
no-output-paths error, and never returns a success outcome (in particular
not one with an empty artifact list). -/
theorem c3_zero_exit_without_paths_block (text : String)
    (h : containsSubstring PROCESSED_PATHS text = false) :
    shooterRun 0 text = ⟨"", "", true⟩ ∧
      renderDispatch (shooterRun 0 text) = RenderOutcome.failure noOutputMsg := by
  have hrun : shooterRun 0 text = ⟨"", "", true⟩ := by
    rw [shooterRun]
    simp only [ne_eq, not_true_eq_false, if_neg, if_false]
    rw [pySplitGet1, extractBlock, findSeq_eq_none_of_not_contains h]
    rfl
  refine ⟨hrun, ?_⟩
  rw [hrun]
  rfl

/-- C3 witness at a concrete input. -/
theorem c3_witness :
    shooterRun 0 "Writing frame 1\nWriting frame 2" = ⟨"", "", true⟩ ∧
      renderDispatch (shooterRun 0 "Writing frame 1\nWriting frame 2") =
        RenderOutcome.failure noOutputMsg :=
  c3_zero_exit_without_paths_block "Writing frame 1\nWriting frame 2" (by decide)

/-- C4 counterexample: on a non-zero exit whose captured text `"boom"`
contains no `[RETURN_STATUS_DATA]` block, the dispatcher does NOT surface
the captured text; the `split(...)[1]` indexing raises inside the thread,
the error message stays empty, and the caller gets the fixed
no-output-paths failure instead. -/
theorem c4_counterexample :
    (shooterRun 1 "boom").raisedIndexError = true ∧
      renderDispatch (shooterRun 1 "boom") = RenderOutcome.failure noOutputMsg ∧
      noOutputMsg ≠ "boom" ∧
      noOutputMsg ≠ errorHeader ++ "boom" := by
  refine ⟨by decide, by decide, by decide, by decide⟩

/-- C4 amended: for every captured worker stderr text paired with a
non-zero process exit in which no `[RETURN_STATUS_DATA]` block is present,
the sentinel extraction raises an uncaught `IndexError` in the worker
thread (so the thread's error message stays empty), and the dispatcher
raises the fixed no-output-paths failure — the captured text is not
surfaced. -/
theorem c4_no_status_block_amended (rc : Int) (text : String)
    (hrc : rc ≠ 0)
    (h : containsSubstring RETURN_STATUS_DATA text = false) :
    shooterRun rc text = ⟨"", "", true⟩ ∧
      renderDispatch (shooterRun rc text) = RenderOutcome.failure noOutputMsg := by
  have hrun : shooterRun rc text = ⟨"", "", true⟩ := by
    rw [shooterRun, if_pos hrc, pySplitGet1, extractBlock,
      findSeq_eq_none_of_not_contains h]
    rfl
  refine ⟨hrun, ?_⟩
  rw [hrun]
  rfl

/-- C4 amended witness at a concrete input. -/
theorem c4_witness :
    shooterRun 7 "oops" = ⟨"", "", true⟩ ∧
      renderDispatch (shooterRun 7 "oops") = RenderOutcome.failure noOutputMsg :=
  c4_no_status_block_amended 7 "oops" (by decide) (by decide)

/-- C6 counterexample: when the extracted diagnostic contains the marker
`Traceback` twice, the surfaced failure message is NOT the portion of the
diagnostic beginning at the first occurrence of the marker: everything from
the second occurrence onward is dropped
(`'Traceback' + msg.split('Traceback')[1]` keeps only the text between the
first two occurrences). -/
theorem c6_counterexample :
    renderDispatch ⟨"xTracebackATracebackB", "", false⟩ =
        RenderOutcome.failure (errorHeader ++ "TracebackA") ∧
      errorHeader ++ "TracebackA" ≠ errorHeader ++ "TracebackATracebackB" := by
  refine ⟨by decide, by decide⟩

/-- C6 amended: on a non-zero worker exit, when the extracted diagnostic is
`a ++ "Traceback" ++ b` with no marker in `a`, the surfaced failure message
is the fixed prefix followed by `"Traceback"` and the portion of `b` before
any further occurrence of the marker (all of `b` when the marker occurs
only once); when the marker is absent the full diagnostic is surfaced
unchanged. -/
theorem c6_traceback_trim_amended :
    (∀ (a b pp : String) (br : Bool),
      containsSubstring "Traceback" a = false →
        renderDispatch ⟨a ++ "Traceback" ++ b, pp, br⟩ =
          RenderOutcome.failure (errorHeader ++
            ("Traceback" ++ String.mk (takeUntilSeq ("Traceback" : String).data b.data))) ∧
        (containsSubstring "Traceback" b = false →
          renderDispatch ⟨a ++ "Traceback" ++ b, pp, br⟩ =
            RenderOutcome.failure (errorHeader ++ ("Traceback" ++ b)))) ∧
    (∀ (d pp : String) (br : Bool), d ≠ "" →
      containsSubstring "Traceback" d = false →
        renderDispatch ⟨d, pp, br⟩ = RenderOutcome.failure (errorHeader ++ d)) := by
  constructor
  · intro a b pp br ha
    have hu : ('T' : Char) ∉ ("raceback" : String).data := by decide
    have ha' : containsSeq ('T' :: ("raceback" : String).data) a.data = false := by
      rw [← traceback_tail]; exact ha
    have hdata : (a ++ "Traceback" ++ b).data =
        a.data ++ ('T' :: ("raceback" : String).data) ++ b.data := by
      rw [← traceback_tail]
      simp [str_data_append]
    have hne : a ++ "Traceback" ++ b ≠ "" := by
      rw [Ne, str_eq_empty_iff, hdata]
      simp
    have htrim : trimTraceback (a ++ "Traceback" ++ b) =
        "Traceback" ++ String.mk (takeUntilSeq ("Traceback" : String).data b.data) := by
      rw [trimTraceback, pySplitGet1, extractBlock, hdata, traceback_tail,
        findSeq_block hu ha']
      rfl
    have hmain : renderDispatch ⟨a ++ "Traceback" ++ b, pp, br⟩ =
        RenderOutcome.failure (errorHeader ++
          ("Traceback" ++ String.mk (takeUntilSeq ("Traceback" : String).data b.data))) := by
      rw [renderDispatch, if_pos hne, htrim]
    refine ⟨hmain, ?_⟩
    intro hb
    rw [hmain]
    have : takeUntilSeq ("Traceback" : String).data b.data = b.data :=
      takeUntilSeq_of_not_contains hb
    rw [this, str_mk_data]
  · intro d pp br hne hd
    have htrim : trimTraceback d = d := by
      rw [trimTraceback, pySplitGet1, extractBlock, findSeq_eq_none_of_not_contains hd]
      rfl
    rw [renderDispatch, if_pos hne, htrim]

theorem dictGet_buildInputData_of_not_key (opts : List (String × String))
    (k : String) (hk : data_keys.contains k = false) :
    dictGet (buildInputData opts) k = none := by
  rw [dictGet, buildInputData]
  have hnil : ((opts.filter (fun p => data_keys.contains p.1)).filter
      (fun p => p.1 == k)) = [] := by
    rw [List.filter_filter]
    apply List.filter_eq_nil_iff.mpr
    intro a _
    by_cases h : a.1 = k
    · rw [h, hk]
      simp
    · simp [h]
  rw [hnil]
  rfl

theorem usage_sentinel_free (scriptName : String)
    (hscript : charFree '[' scriptName.data) :
    containsSubstring RETURN_STATUS_DATA (get_usage scriptName) = false ∧
      containsSubstring PROCESSED_PATHS (get_usage scriptName) = false := by
  have hdata : (get_usage scriptName).data =
      usageHead.data ++ (scriptName.data ++ usageTail.data) := by
    rw [get_usage, str_data_append, str_data_append, List.append_assoc]
  constructor
  · rw [containsSubstring, hdata, return_status_tail,
      containsSeq_append_charFree (by decide),
      containsSeq_append_charFree hscript]
    decide
  · rw [containsSubstring, hdata, processed_paths_tail,
      containsSeq_append_charFree (by decide),
      containsSeq_append_charFree hscript]
    decide

/-- C1 (demonstrating the code bug): for every worker invocation that
passes the missing-argument check with a successful render backend result,
line 267 looks up `input_data['output_path']` — a key that is never parsed
into `input_data` (`'output_path'` is not in `data_keys`) — so the worker
dies on an uncaught `KeyError` after writing only the status frame: no
processed-paths frame is emitted and the exit code is 1, not 0. -/
theorem c1_worker_success_crash (opts : List (String × String))
    (scriptName : String)
    (hh : hasHelpOpt opts = false)
    (hcomplete : data_keys.find?
      (fun k => (dictGet (buildInputData opts) k).isNone) = none) :
    workerMain opts scriptName RetStatus.ok =
      ⟨["", statusFrame RetStatus.ok, ""], [statusFrame RetStatus.ok], 1, true,
        some "output_path"⟩ ∧
    (workerMain opts scriptName RetStatus.ok).exitCode ≠ 0 ∧
    (∀ w ∈ (workerMain opts scriptName RetStatus.ok).stderrWrites,
      containsSubstring PROCESSED_PATHS w = false) := by
  have houtput : dictGet (buildInputData opts) "output_path" = none :=
    dictGet_buildInputData_of_not_key opts "output_path" (by decide)
  have hmain : workerMain opts scriptName RetStatus.ok =
      ⟨["", statusFrame RetStatus.ok, ""], [statusFrame RetStatus.ok], 1, true,
        some "output_path"⟩ := by
    simp [workerMain, hh, hcomplete, houtput]
  refine ⟨hmain, ?_, ?_⟩
  · rw [hmain]
    decide
  · rw [hmain]
    intro w hw
    rcases List.mem_cons.mp hw with rfl | hw
    · decide
    rcases List.mem_cons.mp hw with rfl | hw
    · decide
    rcases List.mem_cons.mp hw with rfl | hw
    · decide
    · simp at hw

/-- C1 witness: a complete, help-free option list. -/
theorem c1_witness :
    workerMain (data_keys.map (fun k => (k, "value"))) "nuke_batch_render_movie.py"
        RetStatus.ok =
      ⟨["", statusFrame RetStatus.ok, ""], [statusFrame RetStatus.ok], 1, true,
        some "output_path"⟩ :=
  (c1_worker_success_crash (data_keys.map (fun k => (k, "value")))
    "nuke_batch_render_movie.py" (by decide) (by decide)).1

/-- C5: for every worker invocation (without the help flag) missing at
least one required named argument, the worker writes the missing-argument
error and the usage text and exits with code 2; the render backend is never
invoked and no protocol frame is emitted (the frame-writing statements are
never reached, and — provided the script basename contains no `'['` —
neither stderr write even contains a sentinel). -/
theorem c5_missing_argument (opts : List (String × String))
    (scriptName : String) (ret : RetStatus) (k : String)
    (hh : hasHelpOpt opts = false)
    (hmiss : data_keys.find?
      (fun d => (dictGet (buildInputData opts) d).isNone) = some k) :
    workerMain opts scriptName ret =
      ⟨[missingArgMsg k, get_usage scriptName], [], 2, false, none⟩ ∧
    (charFree '[' scriptName.data →
      ∀ w ∈ [missingArgMsg k, get_usage scriptName],
        containsSubstring RETURN_STATUS_DATA w = false ∧
        containsSubstring PROCESSED_PATHS w = false) := by
  have hmain : workerMain opts scriptName ret =
      ⟨[missingArgMsg k, get_usage scriptName], [], 2, false, none⟩ := by
    simp [workerMain, hh, hmiss]
  refine ⟨hmain, ?_⟩
  intro hscript w hw
  have hk : k ∈ data_keys := List.mem_of_find?_eq_some hmiss
  rcases List.mem_cons.mp hw with rfl | hw
  · simp only [data_keys, List.mem_cons, List.not_mem_nil, or_false] at hk
    rcases hk with rfl | rfl | rfl | rfl | rfl | rfl | rfl | rfl | rfl | rfl | rfl | rfl | rfl
    all_goals exact ⟨by decide, by decide⟩
  rcases List.mem_cons.mp hw with rfl | hw
  · exact usage_sentinel_free scriptName hscript
  · simp at hw

/-- C5 witness: an invocation carrying only `--path_to_frames`; the first
missing key in `data_keys` order is `path_to_movie`. -/
theorem c5_witness :
    workerMain [("path_to_frames", "/tmp/f.%04d.exr")] "nuke_batch_render_movie.py"
        RetStatus.ok =
      ⟨[missingArgMsg "path_to_movie", get_usage "nuke_batch_render_movie.py"],
        [], 2, false, none⟩ :=
  (c5_missing_argument [("path_to_frames", "/tmp/f.%04d.exr")]
    "nuke_batch_render_movie.py" RetStatus.ok "path_to_movie"
    (by decide) (by decide)).1

/-- C6 amended witness at concrete inputs. -/
theorem c6_witness :
    renderDispatch ⟨"warn:" ++ "Traceback" ++ " boom", "", false⟩ =
        RenderOutcome.failure (errorHeader ++ ("Traceback" ++ " boom")) ∧
      renderDispatch ⟨"plain failure", "", true⟩ =
        RenderOutcome.failure (errorHeader ++ "plain failure") := by
  constructor
  · exact (c6_traceback_trim_amended.1 "warn:" " boom" "" false (by decide)).2 (by decide)
  · exact c6_traceback_trim_amended.2 "plain failure" "" true (by decide) (by decide)

/-- C7: the worker-executable lookup recognizes exactly the three
operating-system identities `win32`, `linux2` and `darwin`, maps them to
three distinct settings keys, and for any unrecognized identity the
job-parameter build raises a `KeyError` before any worker process is
spawned. -/
theorem c7_os_identity_lookup (platform : String) :
    ((osSettingKey platform).isSome = true ↔
      platform = "win32" ∨ platform = "linux2" ∨ platform = "darwin") ∧
    (osSettingKey platform = none →
      renderInNukeEntry platform = ⟨false, some platform⟩) ∧
    osSettingKey "win32" = some "nuke_windows_path" ∧
    osSettingKey "linux2" = some "nuke_linux_path" ∧
    osSettingKey "darwin" = some "nuke_mac_path" ∧
    osSettingKey "win32" ≠ osSettingKey "linux2" ∧
    osSettingKey "win32" ≠ osSettingKey "darwin" ∧
    osSettingKey "linux2" ≠ osSettingKey "darwin" := by
  refine ⟨?_, ?_, by decide, by decide, by decide, by decide, by decide, by decide⟩
  · by_cases h1 : platform = "win32"
    · subst h1; exact ⟨fun _ => Or.inl rfl, fun _ => by decide⟩
    · by_cases h2 : platform = "linux2"
      · subst h2; exact ⟨fun _ => Or.inr (Or.inl rfl), fun _ => by decide⟩
      · by_cases h3 : platform = "darwin"
        · subst h3; exact ⟨fun _ => Or.inr (Or.inr rfl), fun _ => by decide⟩
        · have e1 : ("win32" == platform) = false :=
            beq_eq_false_iff_ne.mpr (Ne.symm h1)
          have e2 : ("linux2" == platform) = false :=
            beq_eq_false_iff_ne.mpr (Ne.symm h2)
          have e3 : ("darwin" == platform) = false :=
            beq_eq_false_iff_ne.mpr (Ne.symm h3)
          have hnone : osSettingKey platform = none := by
            simp [osSettingKey, dictGet, setting_key_by_os, List.filter, e1, e2, e3]
          rw [hnone]
          simp [h1, h2, h3]
  · intro hnone
    simp [renderInNukeEntry, hnone]

/-- C7 witness: an unrecognized platform identity aborts without a
spawn. -/
theorem c7_witness :
    renderInNukeEntry "plan9" = ⟨false, some "plan9"⟩ :=
  (c7_os_identity_lookup "plan9").2.1 (by decide)

/-- C8: for every dispatch, the worker subprocess environment equals the
caller environment augmented with the serialized context token bound under
`TANK_CONTEXT`, and the command line additionally passes the same token as
the value of the `--shotgun_context` argument. -/
theorem c8_spawn_env_and_context (pickle : String → String)
    (batch_mode : Bool) (ri : NukeRenderInfo)
    (osEnv : String → Option String) :
    spawnEnv osEnv ri "TANK_CONTEXT" = some ri.serialized_context ∧
    (∀ k, k ≠ "TANK_CONTEXT" → spawnEnv osEnv ri k = osEnv k) ∧
    ∃ pre suf, cmdAndArgs pickle batch_mode ri =
      pre ++ "--shotgun_context" :: ri.serialized_context :: suf := by
  refine ⟨by simp [spawnEnv], fun k hk => by simp [spawnEnv, hk], ?_⟩
  refine ⟨[ri.nuke_exe_path, if batch_mode then "-t" else "-it",
    ri.render_script_path,
    "--path_to_frames", pickle ri.src_frames_path,
    "--path_to_movie", pickle ri.movie_output_path,
    "--extra_write_node_mapping", pickle ri.extra_write_node_mapping,
    "--width", pickle ri.width,
    "--height", pickle ri.height,
    "--version", pickle ri.version,
    "--name", pickle ri.name,
    "--color_space", pickle ri.color_space,
    "--first_frame", pickle ri.first_frame,
    "--last_frame", pickle ri.last_frame,
    "--app_settings", pickle ri.app_settings],
    ["--render_info", pickle ri.render_info], rfl⟩

/-- C8 witness at a concrete environment, context and job description. -/
theorem c8_witness :
    spawnEnv (fun _ => none)
        ⟨"nuke", "s.py", "f", "m", "e", "w", "h", "v", "n", "c", "1", "2",
          "as", "CTX", "ri"⟩ "PATH" = none :=
  (c8_spawn_env_and_context id true
    ⟨"nuke", "s.py", "f", "m", "e", "w", "h", "v", "n", "c", "1", "2",
      "as", "CTX", "ri"⟩ (fun _ => none)).2.1 "PATH" (by decide)

/-- C9: for every template text containing no recognized tokens, the
script-preprocessing substitution step is the identity: the default
`get_processed_script` hook returns its input unchanged.  (The default
hook is the identity on every input, so in particular on token-free
templates.) -/
theorem c9_token_free_identity (s : String) (fields : List (String × String))
    (h : hasRecognizedToken s = false) :
    get_processed_script s fields = s := rfl

/-- C9 witness on a concrete token-free template. -/
theorem c9_witness :
    hasRecognizedToken "Gain inputs 1 slate text" = false ∧
      get_processed_script "Gain inputs 1 slate text" [] =
        "Gain inputs 1 slate text" :=
  ⟨by decide, c9_token_free_identity "Gain inputs 1 slate text" [] (by decide)⟩

/-- C10: for every argument tuple, the deprecated `render_and_submit`
returns exactly the value returned by `render_and_submit_version` on the
same arguments; its only other effect is the deprecation-warning log
line. -/
theorem c10_deprecated_delegates (app : AppModel) (template : TemplateModel)
    (fields : List (String × String)) (a : SubmitArgs) :
    (render_and_submit app template fields a).2 =
      (render_and_submit_version app template fields a none).2 ∧
    (render_and_submit app template fields a).1 =
      deprecationWarning ::
        (render_and_submit_version app template fields a none).1 :=
  ⟨rfl, rfl⟩

end ReviewSubmission
